import Mathlib

/-!
Verification development for the micro-synthetic-atc repository.

The Python sources are shallowly embedded:
* Python `str` is modelled as `List Char`; `str.lower` as a character map,
  `str.strip` as dropping whitespace on both ends, `a in b` as `List.isInfixOf`.
* Python floats are modelled as real numbers; `float('inf')` as `⊤ : EReal`.
* The ATC phraseology engine (`src/atc_state_manager.py`) is embedded as pure
  state-passing functions over an explicit manager record.
* The geometry (`src/utils/geo_utils.py`, `src/airport_manager.py`) and the
  position classifier (`src/position_detector.py`) are embedded over `ℝ`.
-/

set_option maxHeartbeats 1600000

/-! ### Python string primitives -/

/-- Python `str.lower()` on a string modelled as a character list. -/
def pyLower (s : List Char) : List Char := s.map Char.toLower

/-- Python `str.strip()`: drop whitespace from both ends. -/
def pyStrip (s : List Char) : List Char :=
  ((s.dropWhile Char.isWhitespace).reverse.dropWhile Char.isWhitespace).reverse

/-- Python `sub in s` membership for strings: substring test. -/
def pyIn (sub : List Char) : List Char → Bool
  | [] => sub.isEmpty
  | c :: rest => sub.isPrefixOf (c :: rest) || pyIn sub rest

/-! ### ATC state machine data model (`src/atc_state_manager.py`) -/

/-- ATC radio roles (`class ATCState`). -/
inductive ATCState
  | GROUND | TOWER | DEPARTURE | APPROACH | CENTER | WAITING
  deriving DecidableEq, Repr

/-- Aircraft flight-phase status (`class AircraftStatus`). -/
inductive AircraftStatus
  | AT_GATE | PUSHBACK | TAXIING | HOLDING_SHORT | LINED_UP | TAKEOFF
  | CLIMBING | CRUISING | DESCENDING | APPROACHING | LANDING | LANDED
  deriving DecidableEq, Repr

/-- Response type tags (`class ResponseType`). -/
inductive ResponseType
  | READBACK | ACKNOWLEDGE | READY_REPORT | NO_RESPONSE
  deriving DecidableEq, Repr

/-- One row of the transition table (`@dataclass ATCTransition`).
`required_status` is a Python `set`; only membership is ever used, so a list
is an adequate model. -/
structure ATCTransition where
  from_state : ATCState
  to_state : ATCState
  required_status : List AircraftStatus
  trigger_message : List Char
  expected_response : List Char
  next_actions : List (List Char)
  response_type : ResponseType
  action : List Char
  deriving DecidableEq, Repr

/-- The per-role radio frequencies loaded from the airport JSON
(`class RadioFrequencies`); only the fields the state machine reads. -/
structure RadioConfig where
  ground_freq : List Char
  tower_freq : List Char
  departure_freq : List Char
  approach_freq : List Char
  center_freq : List Char
  tower_name : List Char
  deriving DecidableEq, Repr

/-- `RadioFrequencies.get_frequency(state).frequency`.  The Python dict has no
entry for `WAITING`; that lookup is never reached by the code under
verification, and is mapped to the empty string here. -/
def RadioConfig.get_frequency (cfg : RadioConfig) : ATCState → List Char
  | .GROUND => cfg.ground_freq
  | .TOWER => cfg.tower_freq
  | .DEPARTURE => cfg.departure_freq
  | .APPROACH => cfg.approach_freq
  | .CENTER => cfg.center_freq
  | .WAITING => []

/-- `ATCStateManager._setup_transitions`: the twelve-row transition table, in
dictionary insertion order, with the callsign and the configured tower
name/frequencies spliced into the message templates exactly as the f-strings
do. -/
def setup_transitions (callsign : List Char) (cfg : RadioConfig) : List ATCTransition :=
  [ -- "REQUEST_PUSHBACK"
    { from_state := .GROUND, to_state := .GROUND
      required_status := [.AT_GATE]
      trigger_message := "Ground: ".toList ++ callsign ++ ", request pushback".toList
      expected_response := "Requesting pushback, ".toList ++ callsign
      next_actions := ["Ground: ".toList ++ callsign ++ ", pushback approved, face east".toList]
      response_type := .READBACK
      action := "pushback".toList },
    -- "PUSHBACK_APPROVED"
    { from_state := .GROUND, to_state := .GROUND
      required_status := [.PUSHBACK]
      trigger_message := "Ground: ".toList ++ callsign ++ ", pushback approved, face east".toList
      expected_response := "Pushback approved, face east, ".toList ++ callsign
      next_actions := ["Ground: ".toList ++ callsign ++ ", report when ready to taxi".toList]
      response_type := .READBACK
      action := "pushback".toList },
    -- "READY_TO_TAXI"
    { from_state := .GROUND, to_state := .GROUND
      required_status := [.PUSHBACK]
      trigger_message := "Ground: ".toList ++ callsign ++ ", report when ready to taxi".toList
      expected_response := "Ready to taxi, ".toList ++ callsign
      next_actions := ["Ground: ".toList ++ callsign ++ ", taxi to Runway 16C via Alpha, Bravo".toList]
      response_type := .READY_REPORT
      action := "taxi".toList },
    -- "TAXI_CLEARANCE"
    { from_state := .GROUND, to_state := .GROUND
      required_status := [.PUSHBACK, .TAXIING]
      trigger_message := "Ground: ".toList ++ callsign ++ ", taxi to Runway 16C via Alpha, Bravo".toList
      expected_response := "Taxi to Runway 16C via Alpha, Bravo, ".toList ++ callsign
      next_actions := ["Ground: ".toList ++ callsign ++ ", hold short Runway 16C".toList]
      response_type := .READBACK
      action := "taxi".toList },
    -- "HOLD_SHORT"
    { from_state := .GROUND, to_state := .GROUND
      required_status := [.TAXIING]
      trigger_message := "Ground: ".toList ++ callsign ++ ", hold short Runway 16C".toList
      expected_response := "Hold short Runway 16C, ".toList ++ callsign
      next_actions := ["Ground: ".toList ++ callsign ++ ", contact ".toList ++ cfg.tower_name
        ++ " ".toList ++ cfg.tower_freq]
      response_type := .READBACK
      action := "hold short".toList },
    -- "CROSS_RUNWAY"
    { from_state := .GROUND, to_state := .GROUND
      required_status := [.TAXIING]
      trigger_message := "Ground: ".toList ++ callsign ++ ", cross Runway 16C".toList
      expected_response := "Cross Runway 16C, ".toList ++ callsign
      next_actions := ["Ground: ".toList ++ callsign ++ ", continue taxi via Bravo".toList]
      response_type := .READBACK
      action := "cross runway".toList },
    -- "CONTINUE_TAXI"
    { from_state := .GROUND, to_state := .GROUND
      required_status := [.TAXIING]
      trigger_message := "Ground: ".toList ++ callsign ++ ", continue taxi via Bravo".toList
      expected_response := "Continue taxi via Bravo, ".toList ++ callsign
      next_actions := ["Ground: ".toList ++ callsign ++ ", hold short Runway 16C".toList]
      response_type := .READBACK
      action := "taxi".toList },
    -- "GROUND_TO_TOWER"
    { from_state := .GROUND, to_state := .TOWER
      required_status := [.HOLDING_SHORT]
      trigger_message := "Ground: ".toList ++ callsign ++ ", contact ".toList ++ cfg.tower_name
        ++ " ".toList ++ cfg.tower_freq
      expected_response := "Contacting ".toList ++ cfg.tower_name ++ " ".toList ++ cfg.tower_freq
        ++ ", ".toList ++ callsign
      next_actions := [cfg.tower_name ++ ": ".toList ++ callsign ++ ", hold short Runway 16C".toList]
      response_type := .READBACK
      action := "contact tower".toList },
    -- "TOWER_HOLD_SHORT"
    { from_state := .TOWER, to_state := .TOWER
      required_status := [.HOLDING_SHORT]
      trigger_message := cfg.tower_name ++ ": ".toList ++ callsign ++ ", hold short Runway 16C".toList
      expected_response := "Hold short Runway 16C, ".toList ++ callsign
      next_actions := [cfg.tower_name ++ ": ".toList ++ callsign ++ ", line up and wait Runway 16C".toList]
      response_type := .READBACK
      action := "hold short".toList },
    -- "TOWER_LINE_UP"
    { from_state := .TOWER, to_state := .TOWER
      required_status := [.HOLDING_SHORT]
      trigger_message := cfg.tower_name ++ ": ".toList ++ callsign ++ ", line up and wait Runway 16C".toList
      expected_response := "Line up and wait Runway 16C, ".toList ++ callsign
      next_actions := [cfg.tower_name ++ ": ".toList ++ callsign ++ ", cleared for takeoff Runway 16C".toList]
      response_type := .READBACK
      action := "line up".toList },
    -- "TOWER_TAKEOFF"
    { from_state := .TOWER, to_state := .TOWER
      required_status := [.LINED_UP]
      trigger_message := cfg.tower_name ++ ": ".toList ++ callsign ++ ", cleared for takeoff Runway 16C".toList
      expected_response := "Cleared for takeoff Runway 16C, ".toList ++ callsign
      next_actions := [cfg.tower_name ++ ": ".toList ++ callsign ++ ", contact Departure ".toList
        ++ cfg.departure_freq]
      response_type := .READBACK
      action := "takeoff".toList },
    -- "TOWER_TO_DEPARTURE"
    { from_state := .TOWER, to_state := .DEPARTURE
      required_status := [.TAKEOFF, .CLIMBING]
      trigger_message := cfg.tower_name ++ ": ".toList ++ callsign ++ ", contact Departure ".toList
        ++ cfg.departure_freq
      expected_response := "Contacting Departure ".toList ++ cfg.departure_freq ++ ", ".toList ++ callsign
      next_actions := ["Departure: ".toList ++ callsign ++ ", climb and maintain 5,000".toList]
      response_type := .READBACK
      action := "climb".toList } ]

/-- The mutable runtime state of `ATCStateManager`: current radio role,
aircraft status, callsign, the loaded frequency block, and the built
transition table. -/
structure ATCStateManager where
  current_state : ATCState
  aircraft_status : AircraftStatus
  callsign : List Char
  radio_frequencies : RadioConfig
  transitions : List ATCTransition
  deriving DecidableEq, Repr

/-- `ATCStateManager.__init__`: starts at GROUND / AT_GATE with the default
callsign `"aabbcc"` and the table built for it. -/
def mkATCStateManager (cfg : RadioConfig) : ATCStateManager :=
  { current_state := .GROUND
    aircraft_status := .AT_GATE
    callsign := "aabbcc".toList
    radio_frequencies := cfg
    transitions := setup_transitions "aabbcc".toList cfg }

/-- The `applicable_transitions` list-comprehension shared by
`get_next_message`, `get_expected_response` and `process_response`. -/
def applicable_transitions (m : ATCStateManager) : List ATCTransition :=
  m.transitions.filter fun t =>
    t.from_state == m.current_state && t.required_status.contains m.aircraft_status

/-- The comparison `response.strip().lower() == transition.expected_response.lower()`. -/
def matches_response (response : List Char) (t : ATCTransition) : Bool :=
  pyLower (pyStrip response) == pyLower t.expected_response

/-- The keyword sniffing that re-derives the aircraft status from the
response text inside `process_response`. -/
def derive_status (response : List Char) (old : AircraftStatus) : AircraftStatus :=
  if pyIn "pushback".toList (pyLower response) then .PUSHBACK
  else if pyIn "taxi".toList (pyLower response) then .TAXIING
  else if pyIn "hold short".toList (pyLower response) then .HOLDING_SHORT
  else old

/-- The frequency gate of `process_response`: fires only for transitions
targeting TOWER or DEPARTURE, and only when a truthy (non-`None`, non-empty)
frequency differing from the configured one was supplied. -/
def freq_mismatch (cfg : RadioConfig) (t : ATCTransition) (freq : Option (List Char)) : Bool :=
  (t.to_state == ATCState.TOWER || t.to_state == ATCState.DEPARTURE) &&
    match freq with
    | none => false
    | some f => !f.isEmpty && f != cfg.get_frequency t.to_state

/-- The state mutation performed by `process_response` on a successful match. -/
def apply_transition (m : ATCStateManager) (t : ATCTransition) (response : List Char) :
    ATCStateManager :=
  { m with current_state := t.to_state
           aircraft_status := derive_status response m.aircraft_status }

/-- The matching loop of `process_response` over the applicable transitions.
Result: (returned boolean, manager state after the call, message emitted to
the radio display, if any).  On a frequency mismatch the Python code executes
`return False` immediately. -/
def scan_transitions (m : ATCStateManager) (response : List Char) (freq : Option (List Char)) :
    List ATCTransition → Bool × ATCStateManager × Option (List Char)
  | [] => (false, m, none)
  | t :: rest =>
    if matches_response response t then
      if freq_mismatch m.radio_frequencies t freq then (false, m, none)
      else (true, apply_transition m t response, t.next_actions.head?)
    else scan_transitions m response freq rest

/-- `ATCStateManager.process_response(response, current_frequency)`.
The early `if not applicable_transitions: return False` coincides with the
nil case of the loop. -/
def process_response (m : ATCStateManager) (response : List Char) (freq : Option (List Char)) :
    Bool × ATCStateManager × Option (List Char) :=
  scan_transitions m response freq (applicable_transitions m)

/-- Spec-side variant of the loop in which a frequency mismatch only fails
the current transition and the scan continues with the remaining applicable
transitions ("scanned to completion"). -/
def scan_transitions_all (m : ATCStateManager) (response : List Char) (freq : Option (List Char)) :
    List ATCTransition → Bool × ATCStateManager × Option (List Char)
  | [] => (false, m, none)
  | t :: rest =>
    if matches_response response t then
      if freq_mismatch m.radio_frequencies t freq then scan_transitions_all m response freq rest
      else (true, apply_transition m t response, t.next_actions.head?)
    else scan_transitions_all m response freq rest

/-- `process_response` under the scanned-to-completion reading of the
frequency gate. -/
def process_response_scan_all (m : ATCStateManager) (response : List Char)
    (freq : Option (List Char)) : Bool × ATCStateManager × Option (List Char) :=
  scan_transitions_all m response freq (applicable_transitions m)

/-- `ATCStateManager.update_aircraft_status`. -/
def update_aircraft_status (m : ATCStateManager) (new_status : AircraftStatus) :
    ATCStateManager :=
  { m with aircraft_status := new_status }

/-! Concrete inputs used by counterexamples and witnesses. -/

/-- A concrete frequency block, as would be loaded from an airport layout file. -/
def cfgDemo : RadioConfig :=
  { ground_freq := "121.80".toList
    tower_freq := "118.80".toList
    departure_freq := "125.50".toList
    approach_freq := "119.10".toList
    center_freq := "128.00".toList
    tower_name := "Tower".toList }

/-- A manager holding short of the runway on the ground frequency. -/
def mgrHoldingShort : ATCStateManager :=
  { mkATCStateManager cfgDemo with aircraft_status := .HOLDING_SHORT }

/-- The exact expected readback of the GROUND_TO_TOWER transition for
`cfgDemo` and the default callsign. -/
def respContactTower : List Char := "Contacting Tower 118.80, aabbcc".toList

/-- A manager in an arbitrary (state, status) pair whose transition table was
built by `_setup_transitions` for its callsign — the shape every reachable
`ATCStateManager` has. -/
def mkManagerAt (state : ATCState) (status : AircraftStatus) (cs : List Char)
    (cfg : RadioConfig) : ATCStateManager :=
  { current_state := state
    aircraft_status := status
    callsign := cs
    radio_frequencies := cfg
    transitions := setup_transitions cs cfg }

/-- The REQUEST_PUSHBACK transition as built for the default callsign. -/
def requestPushbackT : ATCTransition :=
  { from_state := .GROUND, to_state := .GROUND
    required_status := [.AT_GATE]
    trigger_message := "Ground: ".toList ++ "aabbcc".toList ++ ", request pushback".toList
    expected_response := "Requesting pushback, ".toList ++ "aabbcc".toList
    next_actions := ["Ground: ".toList ++ "aabbcc".toList ++ ", pushback approved, face east".toList]
    response_type := .READBACK
    action := "pushback".toList }

/-- The GROUND_TO_TOWER transition as built for `cfgDemo` and the default
callsign. -/
def groundToTowerT : ATCTransition :=
  { from_state := .GROUND, to_state := .TOWER
    required_status := [.HOLDING_SHORT]
    trigger_message := "Ground: ".toList ++ "aabbcc".toList ++ ", contact ".toList
      ++ "Tower".toList ++ " ".toList ++ "118.80".toList
    expected_response := "Contacting ".toList ++ "Tower".toList ++ " ".toList
      ++ "118.80".toList ++ ", ".toList ++ "aabbcc".toList
    next_actions := ["Tower".toList ++ ": ".toList ++ "aabbcc".toList
      ++ ", hold short Runway 16C".toList]
    response_type := .READBACK
    action := "contact tower".toList }

/-- Two transitions have distinct expected responses after lowercasing. -/
def distinct_expected (a b : ATCTransition) : Prop :=
  pyLower a.expected_response ≠ pyLower b.expected_response

/-- Any two rows of the built table either expect distinct (lowercased)
responses or hang off different radio states — the invariant that makes the
early-return frequency gate equivalent to a scan to completion. -/
def table_ok (a b : ATCTransition) : Prop :=
  distinct_expected a b ∨ a.from_state ≠ b.from_state

/-! ### Geometry (`src/utils/geo_utils.py`, `src/airport_manager.py`) -/

noncomputable section

/-- Earth radius in meters (`EARTH_RADIUS = 6371000`). -/
def EARTH_RADIUS : ℝ := 6371000

/-- Python `math.radians`. -/
def radians (x : ℝ) : ℝ := x * (Real.pi / 180)

/-- Python `math.degrees`. -/
def degrees (x : ℝ) : ℝ := x * (180 / Real.pi)

/-- Python `math.atan2` on reals (signed-zero distinctions of floats do not
arise over `ℝ`; `atan2 0 0 = 0` as in CPython). -/
def atan2 (y x : ℝ) : ℝ :=
  if 0 < x then Real.arctan (y / x)
  else if x < 0 then
    (if 0 ≤ y then Real.arctan (y / x) + Real.pi else Real.arctan (y / x) - Real.pi)
  else (if 0 < y then Real.pi / 2 else if y < 0 then -(Real.pi / 2) else 0)

/-- Python float `%` with a positive modulus: `x - y * ⌊x / y⌋`, in `[0, y)`
for `y > 0`. -/
def pymod (x y : ℝ) : ℝ := x - y * ⌊x / y⌋

/-- `lat_lon_to_meters`: the planar projection used by all distance code,
dropping the `z` component of the spherical position. -/
def lat_lon_to_meters (p : ℝ × ℝ) : ℝ × ℝ :=
  (EARTH_RADIUS * Real.cos (radians p.1) * Real.cos (radians p.2),
   EARTH_RADIUS * Real.cos (radians p.1) * Real.sin (radians p.2))

/-- The haversine parameter `a` of `haversine_distance`. -/
def haver_a (lat1 lon1 lat2 lon2 : ℝ) : ℝ :=
  Real.sin ((radians lat2 - radians lat1) / 2) ^ 2 +
    Real.cos (radians lat1) * Real.cos (radians lat2) *
      Real.sin ((radians lon2 - radians lon1) / 2) ^ 2

/-- `haversine_distance` from `src/utils/geo_utils.py`. -/
def haversine_distance (lat1 lon1 lat2 lon2 : ℝ) : ℝ :=
  EARTH_RADIUS * (2 * Real.arcsin (Real.sqrt (haver_a lat1 lon1 lat2 lon2)))

/-- Squared planar length of the segment vector. -/
def seg_len_sq (a b : ℝ × ℝ) : ℝ := (b.1 - a.1) ^ 2 + (b.2 - a.2) ^ 2

/-- Projection parameter of `p` onto the line through `a`, `b` (in planar
meters); Lean division by zero yields 0 for the degenerate case, which is
guarded before use everywhere in the code. -/
def proj_param (p a b : ℝ × ℝ) : ℝ :=
  ((p.1 - a.1) * (b.1 - a.1) + (p.2 - a.2) * (b.2 - a.2)) / seg_len_sq a b

/-- `max(0, min(1, projection))`. -/
def clamp01 (t : ℝ) : ℝ := max 0 (min 1 t)

/-- The projected point `a + t * (b - a)`. -/
def proj_point (a b : ℝ × ℝ) (t : ℝ) : ℝ × ℝ :=
  (a.1 + t * (b.1 - a.1), a.2 + t * (b.2 - a.2))

/-- Planar Euclidean distance (`(...)**0.5`). -/
def planar_dist (p q : ℝ × ℝ) : ℝ := Real.sqrt ((p.1 - q.1) ^ 2 + (p.2 - q.2) ^ 2)

/-- `distance_to_segment` from `src/utils/geo_utils.py` (the identical method
`AirportManager._distance_to_segment` is the same function): `float('inf')`
is modelled by `⊤ : EReal`. -/
def distance_to_segment (position segment_start segment_end : ℝ × ℝ) : EReal :=
  let pm := lat_lon_to_meters position
  let sm := lat_lon_to_meters segment_start
  let em := lat_lon_to_meters segment_end
  if seg_len_sq sm em = 0 then ⊤
  else ((planar_dist pm (proj_point sm em (clamp01 (proj_param pm sm em))) : ℝ) : EReal)

/-- `calculate_heading` (both copies): initial bearing in `[0, 360)`. -/
def calculate_heading (lat1 lon1 lat2 lon2 : ℝ) : ℝ :=
  let dlon := radians lon2 - radians lon1
  let y := Real.sin dlon * Real.cos (radians lat2)
  let x := Real.cos (radians lat1) * Real.sin (radians lat2) -
    Real.sin (radians lat1) * Real.cos (radians lat2) * Real.cos dlon
  pymod (degrees (atan2 y x) + 360) 360

/-- A `Runway` after `__init__` has normalized `threshold_coords` to four
numbers, modelled as the two threshold points. -/
structure Runway where
  name : String
  threshold1 : ℝ × ℝ
  threshold2 : ℝ × ℝ
  rlength : ℝ
  width : ℝ
  heading_explicit : Option ℝ

/-- The `Runway.heading` property: the explicit heading if one was supplied,
otherwise the bearing between the thresholds. -/
def Runway.heading (r : Runway) : ℝ :=
  match r.heading_explicit with
  | some h => h
  | none => calculate_heading r.threshold1.1 r.threshold1.2 r.threshold2.1 r.threshold2.2

/-- `Runway.distance_to_center`: distance to the infinite centerline through
the thresholds (projection parameter NOT clamped), `inf` when degenerate. -/
def Runway.distance_to_center (rw : Runway) (position : ℝ × ℝ) : EReal :=
  let pm := lat_lon_to_meters position
  let t1 := lat_lon_to_meters rw.threshold1
  let t2 := lat_lon_to_meters rw.threshold2
  if seg_len_sq t1 t2 = 0 then ⊤
  else ((planar_dist pm (proj_point t1 t2 (proj_param pm t1 t2)) : ℝ) : EReal)

/-- `AirportManager.is_on_runway(position, runway, threshold=0.002)`. -/
def is_on_runway (position : ℝ × ℝ) (rw : Runway) (threshold : ℝ) : Bool :=
  let pm := lat_lon_to_meters position
  let t1 := lat_lon_to_meters rw.threshold1
  let t2 := lat_lon_to_meters rw.threshold2
  if seg_len_sq t1 t2 = 0 then false
  else
    let projection := proj_param pm t1 t2
    if projection < 0 ∨ 1 < projection then false
    else
      let distance_to_center := planar_dist pm (proj_point t1 t2 projection)
      let width_in_degrees := rw.width / 111000
      let effective_threshold := max threshold (width_in_degrees / 2)
      if distance_to_center / 111000 ≤ effective_threshold then true else false

/-- The key minimized by `get_active_runway`:
`abs((r.heading - wind_direction) % 360)`. -/
def run_key (wind_direction : ℝ) (r : Runway) : ℝ := |pymod (r.heading - wind_direction) 360|

/-- `AirportManager.get_active_runway`: Python `min` with a key keeps the
first element attaining the minimum. -/
def get_active_runway (runways : List Runway) (wind_direction : ℝ) : Option Runway :=
  match runways with
  | [] => none
  | r :: rest =>
    some (rest.foldl
      (fun best x => if run_key wind_direction x < run_key wind_direction best then x else best) r)

/-- `TaxiwaySegment` (field `end` is a Lean keyword, stored as `endp`). -/
structure TaxiwaySegment where
  start : ℝ × ℝ
  endp : ℝ × ℝ
  width : ℝ

/-- A named taxiway: an ordered list of segments. -/
structure Taxiway where
  name : String
  segments : List TaxiwaySegment

/-- `AirportManager._distance_to_segment(position, segment)`. -/
def seg_distance (position : ℝ × ℝ) (seg : TaxiwaySegment) : EReal :=
  distance_to_segment position seg.start seg.endp

/-- `Taxiway.distance_to`: minimum clamped distance over the taxiway's
segments, skipping degenerate segments (whose distance is `⊤` and therefore
never improves the running minimum). -/
def Taxiway.distance_to (tw : Taxiway) (position : ℝ × ℝ) : EReal :=
  tw.segments.foldl (fun m seg => let d := seg_distance position seg; if d < m then d else m) ⊤

/-- One step of the `get_nearest_taxiway` scan: keep
`(min_distance, nearest_taxiway)` unless this segment is strictly closer. -/
def scan_seg_step (position : ℝ × ℝ) (tw : Taxiway) (a : EReal × Option Taxiway)
    (seg : TaxiwaySegment) : EReal × Option Taxiway :=
  let d := seg_distance position seg
  if d < a.1 then (d, some tw) else a

/-- Inner loop of `get_nearest_taxiway` over one taxiway's segments, updating
the running `(min_distance, nearest_taxiway)` pair. -/
def scan_segments (position : ℝ × ℝ) (tw : Taxiway) (acc : EReal × Option Taxiway) :
    EReal × Option Taxiway :=
  tw.segments.foldl (scan_seg_step position tw) acc

/-- Both nested loops of `get_nearest_taxiway`, starting from
`(float('inf'), None)`. -/
def scan_taxiways (position : ℝ × ℝ) (tws : List Taxiway) : EReal × Option Taxiway :=
  tws.foldl (fun a tw => scan_segments position tw a) (⊤, none)

/-- Placeholder segment for the (unreachable) `segments[0]` access on a
nearest taxiway with no segments: a taxiway with no segments can never be
selected by the scan. -/
def dummySegment : TaxiwaySegment := ⟨(0, 0), (0, 0), 0⟩

/-- `AirportManager.get_nearest_taxiway(position, threshold=0.0002)`. -/
def get_nearest_taxiway (taxiways : List Taxiway) (position : ℝ × ℝ) (threshold : ℝ) :
    Option Taxiway :=
  if taxiways.isEmpty then none
  else
    let scanned := scan_taxiways position taxiways
    let width_in_degrees : ℝ :=
      match scanned.2 with
      | some tw => (tw.segments.headD dummySegment).width / 111000
      | none => 0
    let effective_threshold := max threshold (width_in_degrees / 2)
    if scanned.1 / (111000 : EReal) ≤ ((effective_threshold : ℝ) : EReal) then scanned.2
    else none

/-- `ParkingPosition` (type field is never branched on). -/
structure ParkingPosition where
  name : String
  coords : ℝ × ℝ
  ptype : String

/-- `ParkingPosition.distance_to`: straight-line distance in degree space. -/
def ParkingPosition.distance_to (p : ParkingPosition) (position : ℝ × ℝ) : ℝ :=
  Real.sqrt ((p.coords.1 - position.1) ^ 2 + (p.coords.2 - position.2) ^ 2)

/-- `AirportManager.get_nearest_parking(position, threshold=0.0002)`. -/
def get_nearest_parking (parking_positions : List ParkingPosition) (position : ℝ × ℝ)
    (threshold : ℝ) : Option ParkingPosition :=
  match parking_positions with
  | [] => none
  | p :: rest =>
    let nearest := rest.foldl
      (fun best x => if x.distance_to position < best.distance_to position then x else best) p
    if nearest.distance_to position ≤ threshold then some nearest else none

/-- `HoldingPoint` as loaded by `load_layout` (`runway` from `associated_with`). -/
structure HoldingPoint where
  name : String
  coords : ℝ × ℝ
  runway : Option String

/-- `AirportManager.is_at_holding_point(position, threshold=0.002)`: a
bounding-box test, first hit wins. -/
def is_at_holding_point (holding_points : List HoldingPoint) (position : ℝ × ℝ)
    (threshold : ℝ) : Option HoldingPoint :=
  match holding_points with
  | [] => none
  | hp :: rest =>
    if |hp.coords.1 - position.1| ≤ threshold ∧ |hp.coords.2 - position.2| ≤ threshold then
      some hp
    else is_at_holding_point rest position threshold

/-- The read-only spatial database held by `AirportManager`. -/
structure Airport where
  runways : List Runway
  taxiways : List Taxiway
  parking_positions : List ParkingPosition
  holding_points : List HoldingPoint

/-! ### Position classifier (`src/position_detector.py`, `run`) -/

/-- `AircraftArea` enum. -/
inductive AircraftArea
  | NOT_DETECTED | AT_PARKING | ON_TAXIWAY | AT_HOLDING_POINT | ON_RUNWAY | IN_FLIGHT
  deriving DecidableEq, Repr

/-- The fields of `PositionInfo` that the classifier writes. -/
structure PositionInfo where
  area : AircraftArea
  specific_location : Option String
  taxiway : Option String
  runway : Option String
  distance_to_center : Option EReal
  heading : ℝ
  speed : ℝ

/-- The `for runway in runways` loop of step 5 of `run`: first runway passing
the between-thresholds, half-width and ±45° heading checks. -/
def runway_scan (true_heading : ℝ) (position : ℝ × ℝ) : List Runway → Option (Runway × EReal)
  | [] => none
  | rw :: rest =>
    if is_on_runway position rw 0.002 then
      let dc := rw.distance_to_center position
      if dc < ((rw.width / 2 : ℝ) : EReal) then
        let heading_diff := |pymod (true_heading - rw.heading) 360|
        if heading_diff < 45 ∨ 315 < heading_diff then some (rw, dc)
        else runway_scan true_heading position rest
      else runway_scan true_heading position rest
    else runway_scan true_heading position rest

/-- One GPS sample as consumed by `PositionDetector.run`. -/
structure GPSSample where
  latitude : ℝ
  longitude : ℝ
  altitude : ℝ
  ground_speed : ℝ

/-- The per-sample classification decision tree of `PositionDetector.run`,
as a pure function of the sample, the attitude heading and the airport. -/
def classify_sample (am : Airport) (gps : GPSSample) (true_heading : ℝ) : PositionInfo :=
  let base : PositionInfo :=
    { area := .NOT_DETECTED, specific_location := none, taxiway := none, runway := none
      distance_to_center := none, heading := true_heading, speed := gps.ground_speed }
  let position := (gps.latitude, gps.longitude)
  if gps.altitude > 500 ∧ gps.ground_speed > 50 then { base with area := .IN_FLIGHT }
  else
    let parkingHit : Option ParkingPosition :=
      if gps.ground_speed < 0.5 then
        match get_nearest_parking am.parking_positions position 0.0002 with
        | some parking =>
          if parking.distance_to position < 0.00005 then some parking else none
        | none => none
      else none
    match parkingHit with
    | some parking => { base with area := .AT_PARKING, specific_location := some parking.name }
    | none =>
      let taxiwayHit : Option (Taxiway × EReal) :=
        if gps.ground_speed > 0.5 then
          match get_nearest_taxiway am.taxiways position 0.0002 with
          | some tw =>
            let d := tw.distance_to position
            if d < ((0.00005 : ℝ) : EReal) then some (tw, d) else none
          | none => none
        else none
      match taxiwayHit with
      | some (tw, d) =>
        { base with area := .ON_TAXIWAY, taxiway := some tw.name, distance_to_center := some d }
      | none =>
        let hpHit : Option HoldingPoint :=
          if gps.ground_speed > 0.5 then is_at_holding_point am.holding_points position 0.002
          else none
        match hpHit with
        | some hp =>
          { base with area := .AT_HOLDING_POINT, specific_location := some hp.name
                      runway := hp.runway }
        | none =>
          let rwHit : Option (Runway × EReal) :=
            if gps.ground_speed > 0.5 then runway_scan true_heading position am.runways
            else none
          match rwHit with
          | some (rw, dc) =>
            { base with area := .ON_RUNWAY, runway := some rw.name
                        distance_to_center := some dc }
          | none => base

/-! Concrete geometry inputs used by witnesses. -/

/-- A runway whose thresholds sit at (0°,0°) and (60°,0°): under the planar
projection these map to `(R, 0)` and `(R/2, 0)`. -/
def rwC4 : Runway :=
  { name := "16C", threshold1 := ((0 : ℝ), 0), threshold2 := ((60 : ℝ), 0)
    rlength := 3000, width := 45, heading_explicit := some 0 }

/-- The point (0°, 90°), which projects to `(0, R)`. -/
def posE : ℝ × ℝ := ((0 : ℝ), 90)

/-- A one-segment taxiway between the two runway thresholds of `rwC4`. -/
def segW : TaxiwaySegment := { start := ((0 : ℝ), 0), endp := ((60 : ℝ), 0), width := 23 }

/-- Taxiway D, carrying `segW`. -/
def twW : Taxiway := { name := "D", segments := [segW] }

/-- The one-taxiway airport layout list used by the C6 witness. -/
def twsW : List Taxiway := [twW]

/-- A runway with explicit heading 100. -/
def rwA : Runway :=
  { name := "10", threshold1 := ((0 : ℝ), 0), threshold2 := ((0 : ℝ), 1)
    rlength := 3000, width := 45, heading_explicit := some 100 }

/-- A runway with explicit heading 20. -/
def rwB : Runway :=
  { name := "02", threshold1 := ((0 : ℝ), 0), threshold2 := ((1 : ℝ), 0)
    rlength := 3000, width := 45, heading_explicit := some 20 }

/-- An airport with no features. -/
def airportEmpty : Airport :=
  { runways := [], taxiways := [], parking_positions := [], holding_points := [] }

/-- An airport with a runway and a taxiway near the sample position. -/
def airportOne : Airport :=
  { runways := [rwC4], taxiways := [twW]
    parking_positions := [{ name := "Stand 1", coords := ((0 : ℝ), 90), ptype := "Commercial" }]
    holding_points := [{ name := "H1", coords := ((0 : ℝ), 90), runway := some "16C" }] }

/-- A sample in cruise: 600 m altitude at 60 m/s. -/
def gpsFlight : GPSSample :=
  { latitude := 0, longitude := 90, altitude := 600, ground_speed := 60 }

end

/-! ### Helper lemmas: the response-matching loop -/

theorem pyLower_append (a b : List Char) : pyLower (a ++ b) = pyLower a ++ pyLower b :=
  List.map_append _ a b

theorem append_take_ne {a b : List Char} {u v : List Char} (k : ℕ) (hka : k ≤ a.length)
    (hkb : k ≤ b.length) (h : a.take k ≠ b.take k) : a ++ u ≠ b ++ v := by
  intro he
  apply h
  have ht : (a ++ u).take k = (b ++ v).take k := by rw [he]
  rwa [List.take_append_of_le_length hka, List.take_append_of_le_length hkb] at ht

theorem scan_no_match (m : ATCStateManager) (r : List Char) (f : Option (List Char)) :
    ∀ l : List ATCTransition, (∀ t ∈ l, matches_response r t = false) →
      scan_transitions m r f l = (false, m, none) := by
  intro l
  induction l with
  | nil => intro _; rfl
  | cons t rest ih =>
    intro h
    have ht : matches_response r t = false := h t (by simp)
    simp only [scan_transitions, ht, Bool.false_eq_true, if_false]
    exact ih fun s hs => h s (by simp [hs])

theorem scan_all_no_match (m : ATCStateManager) (r : List Char) (f : Option (List Char)) :
    ∀ l : List ATCTransition, (∀ t ∈ l, matches_response r t = false) →
      scan_transitions_all m r f l = (false, m, none) := by
  intro l
  induction l with
  | nil => intro _; rfl
  | cons t rest ih =>
    intro h
    have ht : matches_response r t = false := h t (by simp)
    simp only [scan_transitions_all, ht, Bool.false_eq_true, if_false]
    exact ih fun s hs => h s (by simp [hs])

theorem scan_find_success (m : ATCStateManager) (r : List Char) (f : Option (List Char))
    (t : ATCTransition) :
    ∀ l : List ATCTransition, l.find? (matches_response r) = some t →
      freq_mismatch m.radio_frequencies t f = false →
      scan_transitions m r f l = (true, apply_transition m t r, t.next_actions.head?) := by
  intro l
  induction l with
  | nil => intro h; simp at h
  | cons a rest ih =>
    intro hfind hfm
    by_cases ha : matches_response r a
    · rw [List.find?_cons_of_pos _ ha, Option.some.injEq] at hfind
      subst hfind
      simp [scan_transitions, ha, hfm]
    · rw [List.find?_cons_of_neg _ (by simpa using ha)] at hfind
      simp only [scan_transitions, ha, Bool.false_eq_true, if_false]
      exact ih hfind hfm

theorem scan_find_freq_fail (m : ATCStateManager) (r : List Char) (f : Option (List Char))
    (t : ATCTransition) :
    ∀ l : List ATCTransition, l.find? (matches_response r) = some t →
      freq_mismatch m.radio_frequencies t f = true →
      scan_transitions m r f l = (false, m, none) := by
  intro l
  induction l with
  | nil => intro h; simp at h
  | cons a rest ih =>
    intro hfind hfm
    by_cases ha : matches_response r a
    · rw [List.find?_cons_of_pos _ ha, Option.some.injEq] at hfind
      subst hfind
      simp [scan_transitions, ha, hfm]
    · rw [List.find?_cons_of_neg _ (by simpa using ha)] at hfind
      simp only [scan_transitions, ha, Bool.false_eq_true, if_false]
      exact ih hfind hfm

theorem scan_eq_scan_all_of_pairwise (m : ATCStateManager) (r : List Char)
    (f : Option (List Char)) :
    ∀ l : List ATCTransition, l.Pairwise distinct_expected →
      scan_transitions m r f l = scan_transitions_all m r f l := by
  intro l
  induction l with
  | nil => intro _; rfl
  | cons t rest ih =>
    intro hp
    rw [List.pairwise_cons] at hp
    by_cases hm : matches_response r t
    · by_cases hf : freq_mismatch m.radio_frequencies t f
      · have heq : pyLower (pyStrip r) = pyLower t.expected_response := by
          simpa [matches_response] using hm
        have hnm : ∀ s ∈ rest, matches_response r s = false := by
          intro s hs
          have hd : pyLower t.expected_response ≠ pyLower s.expected_response := hp.1 s hs
          simp only [matches_response, heq]
          exact beq_eq_false_iff_ne.mpr hd
        simp only [scan_transitions, scan_transitions_all, hm, hf, if_true]
        exact (scan_all_no_match m r f rest hnm).symm
      · simp [scan_transitions, scan_transitions_all, hm, hf]
    · simp only [scan_transitions, scan_transitions_all, hm, Bool.false_eq_true, if_false]
      exact ih hp.2

theorem setup_table_ok (cs : List Char) (cfg : RadioConfig) :
    (setup_transitions cs cfg).Pairwise table_ok := by
  rw [List.pairwise_iff_getElem]
  intro i j hi hj hij
  simp only [setup_transitions, List.length_cons, List.length_nil] at hi hj
  interval_cases j <;> interval_cases i <;>
    simp only [setup_transitions, List.getElem_cons_zero, List.getElem_cons_succ] <;>
    (unfold table_ok distinct_expected
     first
      | (right; simp; done)
      | (left
         simp only [pyLower_append, List.append_assoc]
         exact append_take_ne 5 (by decide) (by decide) (by decide)))

theorem applicable_pairwise (m : ATCStateManager) (hp : m.transitions.Pairwise table_ok) :
    (applicable_transitions m).Pairwise distinct_expected := by
  have hsub : (applicable_transitions m).Sublist m.transitions := List.filter_sublist _
  have h1 : (applicable_transitions m).Pairwise table_ok := hp.sublist hsub
  refine h1.imp_of_mem ?_
  intro a b ha hb hab
  rcases hab with h | h
  · exact h
  · exfalso
    apply h
    have ha2 := (List.mem_filter.mp ha).2
    have hb2 := (List.mem_filter.mp hb).2
    have ha3 : a.from_state = m.current_state := by
      have := (Bool.and_eq_true _ _).mp ha2
      exact beq_iff_eq.mp this.1
    have hb3 : b.from_state = m.current_state := by
      have := (Bool.and_eq_true _ _).mp hb2
      exact beq_iff_eq.mp this.1
    rw [ha3, hb3]

theorem process_eq_scan_all_aux (m : ATCStateManager) (hp : m.transitions.Pairwise table_ok)
    (r : List Char) (f : Option (List Char)) :
    process_response m r f = process_response_scan_all m r f :=
  scan_eq_scan_all_of_pairwise m r f _ (applicable_pairwise m hp)

/-! ### Claim theorems: the ATC state machine -/

/-- C1 counterexample: at GROUND/HOLDING_SHORT, the response text equals the
expected response of an applicable transition (GROUND_TO_TOWER), yet
`process_response` returns false, because the supplied frequency differs from
the tower frequency — so a text match alone does not imply a `true` return. -/
theorem claim_C1_counterexample :
    (∃ t ∈ applicable_transitions mgrHoldingShort,
        matches_response respContactTower t = true) ∧
    (process_response mgrHoldingShort respContactTower (some "121.00".toList)).1 = false := by
  decide

/-- C1 (amended): when the first applicable transition whose expected
response matches the trimmed, lowercased input does not fail the
TOWER/DEPARTURE frequency gate, `process_response` returns true, advances
`current_state` to that transition's `to_state`, re-derives the aircraft
status by keyword-matching the input text, and emits the transition's first
next-action message; in particular, from GROUND/AT_GATE the exact
REQUEST_PUSHBACK readback sets the status to PUSHBACK and emits the pushback
approval, for every frequency configuration. -/
theorem claim_C1_amended :
    (∀ (m : ATCStateManager) (response : List Char) (freq : Option (List Char))
        (t : ATCTransition),
        (applicable_transitions m).find? (matches_response response) = some t →
        freq_mismatch m.radio_frequencies t freq = false →
        process_response m response freq =
          (true, apply_transition m t response, t.next_actions.head?) ∧
        (apply_transition m t response).current_state = t.to_state ∧
        (apply_transition m t response).aircraft_status =
          derive_status response m.aircraft_status) ∧
    (∀ (cfg : RadioConfig) (freq : Option (List Char)),
        (process_response (mkATCStateManager cfg)
          "Requesting pushback, aabbcc".toList freq).1 = true ∧
        (process_response (mkATCStateManager cfg)
          "Requesting pushback, aabbcc".toList freq).2.1.aircraft_status =
            AircraftStatus.PUSHBACK ∧
        (process_response (mkATCStateManager cfg)
          "Requesting pushback, aabbcc".toList freq).2.2 =
            some "Ground: aabbcc, pushback approved, face east".toList) := by
  constructor
  · intro m response freq t hfind hfm
    exact ⟨scan_find_success m response freq t _ hfind hfm, rfl, rfl⟩
  · intro cfg freq
    exact ⟨rfl, rfl, rfl⟩

/-- C1 witness: the general part applied to the REQUEST_PUSHBACK readback at
the initial GROUND/AT_GATE manager. -/
theorem claim_C1_witness :
    ((applicable_transitions (mkATCStateManager cfgDemo)).find?
        (matches_response "Requesting pushback, aabbcc".toList) = some requestPushbackT ∧
      freq_mismatch cfgDemo requestPushbackT none = false) ∧
    process_response (mkATCStateManager cfgDemo) "Requesting pushback, aabbcc".toList none =
      (true, apply_transition (mkATCStateManager cfgDemo) requestPushbackT
        "Requesting pushback, aabbcc".toList, requestPushbackT.next_actions.head?) := by
  refine ⟨⟨by decide, by decide⟩, ?_⟩
  exact (claim_C1_amended.1 (mkATCStateManager cfgDemo)
    "Requesting pushback, aabbcc".toList none requestPushbackT (by decide) (by decide)).1

/-- C2: an input matching no applicable transition leaves the manager
unchanged, returns false, and emits nothing — the pilot can retry. -/
theorem claim_C2 (m : ATCStateManager) (response : List Char) (freq : Option (List Char))
    (h : (applicable_transitions m).all (fun t => !(matches_response response t)) = true) :
    process_response m response freq = (false, m, none) := by
  apply scan_no_match
  intro t ht
  have := (List.all_eq_true.mp h) t ht
  simpa using this

/-- C2 witness: an unrelated string at the initial manager. -/
theorem claim_C2_witness :
    ((applicable_transitions (mkATCStateManager cfgDemo)).all
        (fun t => !(matches_response "hello tower".toList t)) = true) ∧
    process_response (mkATCStateManager cfgDemo) "hello tower".toList none =
      (false, mkATCStateManager cfgDemo, none) :=
  ⟨by decide, claim_C2 (mkATCStateManager cfgDemo) "hello tower".toList none (by decide)⟩

/-- C3: a response matching a transition that targets TOWER or DEPARTURE but
carries a wrong (truthy) frequency makes `process_response` return false with
the state unchanged; and for every manager built by `_setup_transitions`,
`process_response` agrees everywhere with the variant that scans the
remaining applicable transitions to completion. -/
theorem claim_C3 :
    (∀ (m : ATCStateManager) (response : List Char) (fr : List Char) (t : ATCTransition),
        (applicable_transitions m).find? (matches_response response) = some t →
        (t.to_state = ATCState.TOWER ∨ t.to_state = ATCState.DEPARTURE) →
        fr ≠ [] →
        fr ≠ m.radio_frequencies.get_frequency t.to_state →
        process_response m response (some fr) = (false, m, none)) ∧
    (∀ (state : ATCState) (status : AircraftStatus) (cs : List Char) (cfg : RadioConfig)
        (response : List Char) (freq : Option (List Char)),
        process_response (mkManagerAt state status cs cfg) response freq =
          process_response_scan_all (mkManagerAt state status cs cfg) response freq) := by
  constructor
  · intro m response fr t hfind hts hne hnf
    apply scan_find_freq_fail m response (some fr) t _ hfind
    have h1 : (t.to_state == ATCState.TOWER || t.to_state == ATCState.DEPARTURE) = true := by
      rcases hts with h | h <;> simp [h]
    have h2 : fr.isEmpty = false := by
      simpa [List.isEmpty_iff] using hne
    simp [freq_mismatch, h1, h2, hnf]
  · intro state status cs cfg response freq
    exact process_eq_scan_all_aux _ (setup_table_ok cs cfg) response freq

/-- C3 witness: the correctly worded tower-contact readback on a wrong
frequency at GROUND/HOLDING_SHORT. -/
theorem claim_C3_witness :
    ((applicable_transitions mgrHoldingShort).find?
        (matches_response respContactTower) = some groundToTowerT ∧
      groundToTowerT.to_state = ATCState.TOWER ∧
      ("121.00".toList ≠ ([] : List Char)) ∧
      "121.00".toList ≠ mgrHoldingShort.radio_frequencies.get_frequency groundToTowerT.to_state) ∧
    process_response mgrHoldingShort respContactTower (some "121.00".toList) =
      (false, mgrHoldingShort, none) := by
  refine ⟨⟨by decide, by decide, by decide, by decide⟩, ?_⟩
  exact claim_C3.1 mgrHoldingShort respContactTower "121.00".toList groundToTowerT
    (by decide) (Or.inl (by decide)) (by decide) (by decide)

/-- C10: `update_aircraft_status` sets exactly the aircraft status and leaves
the radio state, callsign, frequency block and transition table untouched. -/
theorem claim_C10 (m : ATCStateManager) (s : AircraftStatus) :
    (update_aircraft_status m s).aircraft_status = s ∧
    (update_aircraft_status m s).current_state = m.current_state ∧
    (update_aircraft_status m s).callsign = m.callsign ∧
    (update_aircraft_status m s).radio_frequencies = m.radio_frequencies ∧
    (update_aircraft_status m s).transitions = m.transitions :=
  ⟨rfl, rfl, rfl, rfl, rfl⟩

/-! ### Helper lemmas: planar projection at the witness points -/

theorem radians_zero : radians 0 = 0 := by
  unfold radians; ring

theorem radians_sixty : radians 60 = Real.pi / 3 := by
  unfold radians; ring

theorem radians_ninety : radians 90 = Real.pi / 2 := by
  unfold radians; ring

theorem latlon_0_0 : lat_lon_to_meters ((0 : ℝ), 0) = (EARTH_RADIUS, 0) := by
  simp [lat_lon_to_meters, radians_zero]

theorem latlon_60_0 : lat_lon_to_meters ((60 : ℝ), 0) = (EARTH_RADIUS / 2, 0) := by
  simp [lat_lon_to_meters, radians_sixty, radians_zero, Real.cos_pi_div_three]
  ring

theorem latlon_0_90 : lat_lon_to_meters ((0 : ℝ), 90) = (0, EARTH_RADIUS) := by
  simp [lat_lon_to_meters, radians_zero, radians_ninety]

theorem projC4 :
    proj_param (lat_lon_to_meters posE) (lat_lon_to_meters rwC4.threshold1)
      (lat_lon_to_meters rwC4.threshold2) = 2 := by
  show proj_param (lat_lon_to_meters ((0 : ℝ), 90)) (lat_lon_to_meters ((0 : ℝ), 0))
    (lat_lon_to_meters ((60 : ℝ), 0)) = 2
  rw [latlon_0_90, latlon_0_0, latlon_60_0]
  unfold proj_param seg_len_sq EARTH_RADIUS
  norm_num

theorem segC4_nondegenerate :
    seg_len_sq (lat_lon_to_meters ((0 : ℝ), 0)) (lat_lon_to_meters ((60 : ℝ), 0)) ≠ 0 := by
  rw [latlon_0_0, latlon_60_0]
  unfold seg_len_sq EARTH_RADIUS
  norm_num

/-! ### Claim theorems: `is_on_runway` and `distance_to_segment` -/

/-- C4: `is_on_runway` answers false whenever the centerline projection
parameter falls outside `[0, 1]`, and likewise for a zero-length runway with
identical thresholds (no division error is possible). -/
theorem claim_C4 (position : ℝ × ℝ) (rw : Runway) (threshold : ℝ)
    (h : rw.threshold1 = rw.threshold2 ∨
      proj_param (lat_lon_to_meters position) (lat_lon_to_meters rw.threshold1)
        (lat_lon_to_meters rw.threshold2) < 0 ∨
      1 < proj_param (lat_lon_to_meters position) (lat_lon_to_meters rw.threshold1)
        (lat_lon_to_meters rw.threshold2)) :
    is_on_runway position rw threshold = false := by
  rcases h with h | h | h
  · have hz : seg_len_sq (lat_lon_to_meters rw.threshold1)
        (lat_lon_to_meters rw.threshold2) = 0 := by
      rw [h]; simp [seg_len_sq]
    simp [is_on_runway, hz]
  · by_cases hz : seg_len_sq (lat_lon_to_meters rw.threshold1)
        (lat_lon_to_meters rw.threshold2) = 0
    · simp [is_on_runway, hz]
    · simp only [is_on_runway, hz, if_false]
      rw [if_pos (Or.inl h)]
  · by_cases hz : seg_len_sq (lat_lon_to_meters rw.threshold1)
        (lat_lon_to_meters rw.threshold2) = 0
    · simp [is_on_runway, hz]
    · simp only [is_on_runway, hz, if_false]
      rw [if_pos (Or.inr h)]

/-- C4 witness: the point (0°, 90°) projects onto the `rwC4` centerline with
parameter 2 > 1, and `is_on_runway` answers false there. -/
theorem claim_C4_witness :
    1 < proj_param (lat_lon_to_meters posE) (lat_lon_to_meters rwC4.threshold1)
        (lat_lon_to_meters rwC4.threshold2) ∧
    is_on_runway posE rwC4 0.002 = false := by
  have hp : 1 < proj_param (lat_lon_to_meters posE) (lat_lon_to_meters rwC4.threshold1)
      (lat_lon_to_meters rwC4.threshold2) := by
    rw [projC4]; norm_num
  exact ⟨hp, claim_C4 posE rwC4 0.002 (Or.inr (Or.inr hp))⟩

/-- C8: a degenerate segment gives the `+∞` sentinel for every probe point,
and a non-degenerate segment gives the planar distance to the projection
point computed with the parameter clamped into `[0, 1]` — a point that lies
on the segment between the two converted endpoints. -/
theorem claim_C8 :
    (∀ p s : ℝ × ℝ, distance_to_segment p s s = ⊤) ∧
    (∀ p s e : ℝ × ℝ,
      seg_len_sq (lat_lon_to_meters s) (lat_lon_to_meters e) ≠ 0 →
      (0 ≤ clamp01 (proj_param (lat_lon_to_meters p) (lat_lon_to_meters s)
          (lat_lon_to_meters e)) ∧
        clamp01 (proj_param (lat_lon_to_meters p) (lat_lon_to_meters s)
          (lat_lon_to_meters e)) ≤ 1) ∧
      distance_to_segment p s e =
        ((planar_dist (lat_lon_to_meters p)
          (proj_point (lat_lon_to_meters s) (lat_lon_to_meters e)
            (clamp01 (proj_param (lat_lon_to_meters p) (lat_lon_to_meters s)
              (lat_lon_to_meters e)))) : ℝ) : EReal) ∧
      proj_point (lat_lon_to_meters s) (lat_lon_to_meters e)
          (clamp01 (proj_param (lat_lon_to_meters p) (lat_lon_to_meters s)
            (lat_lon_to_meters e))) ∈
        segment ℝ (lat_lon_to_meters s) (lat_lon_to_meters e)) := by
  constructor
  · intro p s
    simp [distance_to_segment, seg_len_sq]
  · intro p s e hnd
    set t := clamp01 (proj_param (lat_lon_to_meters p) (lat_lon_to_meters s)
      (lat_lon_to_meters e)) with ht
    have h0 : 0 ≤ t := le_max_left 0 _
    have h1 : t ≤ 1 := max_le (by norm_num) (min_le_left 1 _)
    refine ⟨⟨h0, h1⟩, ?_, ?_⟩
    · simp [distance_to_segment, hnd]
    · refine ⟨1 - t, t, by linarith, h0, by ring, ?_⟩
      apply Prod.ext
      · simp [proj_point, smul_eq_mul]
        ring
      · simp [proj_point, smul_eq_mul]
        ring

/-- C8 witness: the non-degenerate part applied to a concrete segment — its
clamped projection point lies on the segment between the converted
endpoints. -/
theorem claim_C8_witness :
    seg_len_sq (lat_lon_to_meters ((0 : ℝ), 0)) (lat_lon_to_meters ((60 : ℝ), 0)) ≠ 0 ∧
    proj_point (lat_lon_to_meters ((0 : ℝ), 0)) (lat_lon_to_meters ((60 : ℝ), 0))
        (clamp01 (proj_param (lat_lon_to_meters posE) (lat_lon_to_meters ((0 : ℝ), 0))
          (lat_lon_to_meters ((60 : ℝ), 0)))) ∈
      segment ℝ (lat_lon_to_meters ((0 : ℝ), 0)) (lat_lon_to_meters ((60 : ℝ), 0)) :=
  ⟨segC4_nondegenerate,
    (claim_C8.2 posE ((0 : ℝ), 0) ((60 : ℝ), 0) segC4_nondegenerate).2.2⟩

/-! ### Claim theorem: in-flight classification priority -/

/-- C5: a sample above 500 m and faster than 50 m/s classifies as IN_FLIGHT,
and the whole classification result is independent of the airport layout —
no ground-feature check influences it. -/
theorem claim_C5 (am am2 : Airport) (gps : GPSSample) (true_heading : ℝ)
    (h1 : gps.altitude > 500) (h2 : gps.ground_speed > 50) :
    (classify_sample am gps true_heading).area = AircraftArea.IN_FLIGHT ∧
    classify_sample am gps true_heading = classify_sample am2 gps true_heading := by
  constructor
  · simp only [classify_sample]
    rw [if_pos ⟨h1, h2⟩]
  · simp only [classify_sample]
    rw [if_pos ⟨h1, h2⟩, if_pos ⟨h1, h2⟩]

/-- C5 witness: the 600 m / 60 m/s sample over both the empty airport and an
airport with features at the sample position. -/
theorem claim_C5_witness :
    (gpsFlight.altitude > 500 ∧ gpsFlight.ground_speed > 50) ∧
    (classify_sample airportOne gpsFlight 140).area = AircraftArea.IN_FLIGHT ∧
    classify_sample airportOne gpsFlight 140 = classify_sample airportEmpty gpsFlight 140 := by
  have h1 : gpsFlight.altitude > 500 := by norm_num [gpsFlight]
  have h2 : gpsFlight.ground_speed > 50 := by norm_num [gpsFlight]
  exact ⟨⟨h1, h2⟩, (claim_C5 airportOne airportEmpty gpsFlight 140 h1 h2).1,
    (claim_C5 airportOne airportEmpty gpsFlight 140 h1 h2).2⟩

/-! ### Helper lemmas: the nearest-taxiway scan -/

theorem scan_seg_step_fst_le (position : ℝ × ℝ) (tw : Taxiway) (a : EReal × Option Taxiway)
    (seg : TaxiwaySegment) : (scan_seg_step position tw a seg).1 ≤ a.1 := by
  unfold scan_seg_step
  by_cases h : seg_distance position seg < a.1
  · simp only [h, if_true]
    exact le_of_lt h
  · simp [h]

theorem scan_seg_fold_fst_le (position : ℝ × ℝ) (tw : Taxiway) :
    ∀ (l : List TaxiwaySegment) (acc : EReal × Option Taxiway),
      (l.foldl (scan_seg_step position tw) acc).1 ≤ acc.1 := by
  intro l
  induction l with
  | nil => intro acc; simp
  | cons s rest ih =>
    intro acc
    simp only [List.foldl_cons]
    exact le_trans (ih _) (scan_seg_step_fst_le position tw acc s)

theorem scan_seg_fold_le_mem (position : ℝ × ℝ) (tw : Taxiway) :
    ∀ (l : List TaxiwaySegment) (acc : EReal × Option Taxiway), ∀ s ∈ l,
      (l.foldl (scan_seg_step position tw) acc).1 ≤ seg_distance position s := by
  intro l
  induction l with
  | nil => simp
  | cons s0 rest ih =>
    intro acc s hs
    simp only [List.foldl_cons]
    rcases List.mem_cons.mp hs with h | h
    · subst h
      refine le_trans (scan_seg_fold_fst_le position tw rest _) ?_
      unfold scan_seg_step
      by_cases hlt : seg_distance position s < acc.1
      · simp [hlt]
      · simp only [hlt, if_false]
        exact le_of_not_lt hlt
    · exact ih _ s h

theorem scan_seg_fold_provenance (position : ℝ × ℝ) (tw : Taxiway) :
    ∀ (l : List TaxiwaySegment) (acc : EReal × Option Taxiway),
      l.foldl (scan_seg_step position tw) acc = acc ∨
      ((l.foldl (scan_seg_step position tw) acc).2 = some tw ∧
        ∃ s ∈ l, (l.foldl (scan_seg_step position tw) acc).1 = seg_distance position s) := by
  intro l
  induction l with
  | nil => intro acc; exact Or.inl rfl
  | cons s0 rest ih =>
    intro acc
    simp only [List.foldl_cons]
    by_cases hlt : seg_distance position s0 < acc.1
    · have hstep : scan_seg_step position tw acc s0 = (seg_distance position s0, some tw) := by
        unfold scan_seg_step; simp [hlt]
    
      rw [hstep]
      rcases ih (seg_distance position s0, some tw) with h | ⟨h2, s, hs, h1⟩
      · rw [h]
        exact Or.inr ⟨rfl, s0, by simp, rfl⟩
      · exact Or.inr ⟨h2, s, by simp [hs], h1⟩
    · have hstep : scan_seg_step position tw acc s0 = acc := by
        unfold scan_seg_step; simp [hlt]
      rw [hstep]
      rcases ih acc with h | ⟨h2, s, hs, h1⟩
      · exact Or.inl h
      · exact Or.inr ⟨h2, s, by simp [hs], h1⟩

theorem scan_tws_fold_fst_le (position : ℝ × ℝ) :
    ∀ (l : List Taxiway) (acc : EReal × Option Taxiway),
      (l.foldl (fun a tw => scan_segments position tw a) acc).1 ≤ acc.1 := by
  intro l
  induction l with
  | nil => intro acc; simp
  | cons tw0 rest ih =>
    intro acc
    simp only [List.foldl_cons]
    exact le_trans (ih _) (scan_seg_fold_fst_le position tw0 tw0.segments acc)

theorem scan_tws_le_mem (position : ℝ × ℝ) :
    ∀ (l : List Taxiway) (acc : EReal × Option Taxiway), ∀ tw ∈ l, ∀ s ∈ tw.segments,
      (l.foldl (fun a tw => scan_segments position tw a) acc).1 ≤ seg_distance position s := by
  intro l
  induction l with
  | nil => simp
  | cons tw0 rest ih =>
    intro acc tw htw s hs
    simp only [List.foldl_cons]
    rcases List.mem_cons.mp htw with h | h
    · subst h
      exact le_trans (scan_tws_fold_fst_le position rest _)
        (scan_seg_fold_le_mem position tw tw.segments acc s hs)
    · exact ih _ tw h s hs

theorem scan_tws_provenance (position : ℝ × ℝ) :
    ∀ (l : List Taxiway) (acc : EReal × Option Taxiway),
      l.foldl (fun a tw => scan_segments position tw a) acc = acc ∨
      ∃ tw ∈ l, (l.foldl (fun a tw => scan_segments position tw a) acc).2 = some tw ∧
        ∃ s ∈ tw.segments,
          (l.foldl (fun a tw => scan_segments position tw a) acc).1 = seg_distance position s := by
  intro l
  induction l with
  | nil => intro acc; exact Or.inl rfl
  | cons tw0 rest ih =>
    intro acc
    simp only [List.foldl_cons]
    rcases scan_seg_fold_provenance position tw0 tw0.segments acc with hin | ⟨hin2, s, hs, hin1⟩
    · rcases ih (scan_segments position tw0 acc) with h | ⟨tw, htw, h2, s, hs, h1⟩
      · rw [h]
        unfold scan_segments
        rw [hin]
        exact Or.inl rfl
      · exact Or.inr ⟨tw, by simp [htw], h2, s, hs, h1⟩
    · rcases ih (scan_segments position tw0 acc) with h | ⟨tw, htw, h2, s', hs', h1⟩
      · rw [h]
        exact Or.inr ⟨tw0, by simp, hin2, s, hs, hin1⟩
      · exact Or.inr ⟨tw, by simp [htw], h2, s', hs', h1⟩

/-- C6: the nearest-taxiway scan visits all segments of all taxiways with the
clamped point-to-segment distance and tracks the minimum (first conjunct: the
tracked value is a lower bound of every segment distance; second: the
recorded taxiway owns a segment attaining it); the query returns the recorded
taxiway exactly when the tracked minimum, converted to degrees, is at most
the larger of the passed threshold and half the nearest taxiway's width. -/
theorem claim_C6 (taxiways : List Taxiway) (position : ℝ × ℝ) (threshold : ℝ) :
    (∀ tw ∈ taxiways, ∀ s ∈ tw.segments,
        (scan_taxiways position taxiways).1 ≤ seg_distance position s) ∧
    (∀ tw, (scan_taxiways position taxiways).2 = some tw →
        tw ∈ taxiways ∧ ∃ s ∈ tw.segments,
          (scan_taxiways position taxiways).1 = seg_distance position s) ∧
    (∀ tw, get_nearest_taxiway taxiways position threshold = some tw ↔
        taxiways ≠ [] ∧ (scan_taxiways position taxiways).2 = some tw ∧
          (scan_taxiways position taxiways).1 / (111000 : EReal) ≤
            ((max threshold ((tw.segments.headD dummySegment).width / 111000 / 2) : ℝ) :
              EReal)) := by
  refine ⟨?_, ?_, ?_⟩
  · intro tw htw s hs
    exact scan_tws_le_mem position taxiways _ tw htw s hs
  · intro tw h2
    rcases scan_tws_provenance position taxiways (⊤, none) with h | ⟨tw', htw', h2', s, hs, h1⟩
    · rw [show scan_taxiways position taxiways =
          taxiways.foldl (fun a tw => scan_segments position tw a) (⊤, none) from rfl, h] at h2
      simp at h2
    · have hsc : (scan_taxiways position taxiways).2 = some tw' := h2'
      rw [h2] at hsc
      obtain rfl : tw' = tw := by
        simpa using hsc.symm
      exact ⟨htw', s, hs, h1⟩
  · intro tw
    unfold get_nearest_taxiway
    by_cases hemp : taxiways.isEmpty
    · have : taxiways = [] := List.isEmpty_iff.mp hemp
      simp [hemp, this]
    · have hne : taxiways ≠ [] := by
        intro h
        rw [h] at hemp
        simp at hemp
      simp only [hemp, Bool.false_eq_true, if_false]
      rcases ho : (scan_taxiways position taxiways).2 with _ | tw'
      · simp only [ho]
        constructor
        · intro h
          split at h <;> simp_all
        · rintro ⟨-, h, -⟩
          simp at h
      · simp only [ho]
        by_cases hcond : (scan_taxiways position taxiways).1 / (111000 : EReal) ≤
            ((max threshold ((tw'.segments.headD dummySegment).width / 111000 / 2) : ℝ) : EReal)
        · rw [if_pos hcond]
          constructor
          · intro h
            obtain rfl : tw' = tw := by simpa using h
            exact ⟨hne, rfl, hcond⟩
          · rintro ⟨-, h, -⟩
            simpa using h
        · rw [if_neg hcond]
          constructor
          · intro h
            simp at h
          · rintro ⟨-, h, hc⟩
            obtain rfl : tw' = tw := by simpa using h
            exact absurd hc hcond

/-- C6 witness: the first conjunct applied to the one-taxiway layout. -/
theorem claim_C6_witness :
    twW ∈ twsW ∧ segW ∈ twW.segments ∧
    (scan_taxiways posE twsW).1 ≤ seg_distance posE segW :=
  ⟨by simp [twsW], by simp [twW],
    (claim_C6 twsW posE 0.0002).1 twW (by simp [twsW]) segW (by simp [twW])⟩

/-! ### Helper lemmas: the active-runway minimum -/

theorem run_fold_mem (wind : ℝ) :
    ∀ (rest : List Runway) (r : Runway),
      (rest.foldl (fun best x => if run_key wind x < run_key wind best then x else best) r) ∈
        r :: rest := by
  intro rest
  induction rest with
  | nil => intro r; simp
  | cons y rest ih =>
    intro r
    simp only [List.foldl_cons]
    by_cases h : run_key wind y < run_key wind r
    · simp only [h, if_true]
      have := ih y
      simp only [List.mem_cons] at this ⊢
      tauto
    · simp only [h, if_false]
      have := ih r
      simp only [List.mem_cons] at this ⊢
      tauto

theorem run_fold_min (wind : ℝ) :
    ∀ (rest : List Runway) (r : Runway), ∀ x ∈ r :: rest,
      run_key wind
          (rest.foldl (fun best x => if run_key wind x < run_key wind best then x else best) r) ≤
        run_key wind x := by
  intro rest
  induction rest with
  | nil =>
    intro r x hx
    simp only [List.mem_cons, List.not_mem_nil, or_false] at hx
    subst hx
    simp
  | cons y rest ih =>
    intro r x hx
    simp only [List.foldl_cons]
    simp only [List.mem_cons] at hx
    by_cases h : run_key wind y < run_key wind r
    · simp only [h, if_true]
      rcases hx with hxr | hxy | hx'
      · rw [hxr]
        exact le_trans (ih y y (by simp)) (le_of_lt h)
      · rw [hxy]
        exact ih y y (by simp)
      · exact ih y x (by simp [hx'])
    · simp only [h, if_false]
      rcases hx with hxr | hxy | hx'
      · rw [hxr]
        exact ih r r (by simp)
      · rw [hxy]
        exact le_trans (ih r r (by simp)) (le_of_not_lt h)
      · exact ih r x (by simp [hx'])

theorem run_fold_first (wind : ℝ) :
    ∀ (rest : List Runway) (r : Runway),
      ∃ pre post,
        r :: rest = pre ++
          (rest.foldl (fun best x => if run_key wind x < run_key wind best then x else best) r)
            :: post ∧
        ∀ x ∈ pre,
          run_key wind
            (rest.foldl (fun best x => if run_key wind x < run_key wind best then x else best) r)
            < run_key wind x := by
  intro rest
  induction rest with
  | nil =>
    intro r
    exact ⟨[], [], rfl, by simp⟩
  | cons y rest ih =>
    intro r
    simp only [List.foldl_cons]
    by_cases h : run_key wind y < run_key wind r
    · simp only [h, if_true]
      obtain ⟨pre, post, heq, hpre⟩ := ih y
      refine ⟨r :: pre, post, by rw [List.cons_append, ← heq], ?_⟩
      intro x hx
      rcases List.mem_cons.mp hx with hxr | hx'
      · rw [hxr]
        exact lt_of_le_of_lt (run_fold_min wind rest y y (by simp)) h
      · exact hpre x hx'
    · simp only [h, if_false]
      obtain ⟨pre, post, heq, hpre⟩ := ih r
      rcases pre with _ | ⟨a, pre'⟩
      · simp only [List.nil_append, List.cons.injEq] at heq
        exact ⟨[], y :: rest, by rw [List.nil_append, ← heq.1], by simp⟩
      · simp only [List.cons_append, List.cons.injEq] at heq
        obtain ⟨ha, htail⟩ := heq
        have hra : run_key wind
            (rest.foldl (fun best x => if run_key wind x < run_key wind best then x else best) r)
            < run_key wind r := by
          have := hpre a (by simp)
          rw [show run_key wind r = run_key wind a from congrArg _ ha]
          exact this
        refine ⟨r :: y :: pre', post, ?_, ?_⟩
        · simp only [List.cons_append]
          rw [← htail]
        · intro x hx
          simp only [List.mem_cons] at hx
          rcases hx with hxr | hxy | hx'
          · rw [hxr]
            exact hra
          · rw [hxy]
            exact lt_of_lt_of_le hra (le_of_not_lt h)
          · exact hpre x (by simp [hx'])

/-- C7: `get_active_runway` returns none on an empty runway list, and
otherwise the first runway minimizing `|(heading − wind) mod 360|`: its key
is a lower bound of every runway's key, and every runway listed before it has
a strictly larger key. -/
theorem claim_C7 (runways : List Runway) (wind_direction : ℝ) :
    (runways = [] → get_active_runway runways wind_direction = none) ∧
    (∀ r, get_active_runway runways wind_direction = some r →
      (∀ x ∈ runways, run_key wind_direction r ≤ run_key wind_direction x) ∧
      ∃ pre post, runways = pre ++ r :: post ∧
        ∀ x ∈ pre, run_key wind_direction r < run_key wind_direction x) := by
  constructor
  · intro h
    rw [h]
    rfl
  · intro r hr
    cases runways with
    | nil => simp [get_active_runway] at hr
    | cons r0 rest =>
      have hres : rest.foldl
          (fun best x =>
            if run_key wind_direction x < run_key wind_direction best then x else best) r0 = r := by
        simpa [get_active_runway] using hr
      constructor
      · intro x hx
        rw [← hres]
        exact run_fold_min wind_direction rest r0 x hx
      · rw [← hres]
        exact run_fold_first wind_direction rest r0

/-- C7 witness: with wind 10, the runway with heading 20 (key 10) beats the
earlier runway with heading 100 (key 90). -/
theorem claim_C7_witness :
    get_active_runway [rwA, rwB] 10 = some rwB ∧
    (∀ x ∈ [rwA, rwB], run_key 10 rwB ≤ run_key 10 x) ∧
    ∃ pre post, [rwA, rwB] = pre ++ rwB :: post ∧
      ∀ x ∈ pre, run_key 10 rwB < run_key 10 x := by
  have hA : run_key 10 rwA = 90 := by
    have hh : rwA.heading = 100 := rfl
    unfold run_key pymod
    rw [hh]
    have hfl : ⌊((100 : ℝ) - 10) / 360⌋ = 0 := by
      rw [Int.floor_eq_zero_iff, Set.mem_Ico]
      constructor <;> norm_num
    rw [hfl]
    norm_num
  have hB : run_key 10 rwB = 10 := by
    have hh : rwB.heading = 20 := rfl
    unfold run_key pymod
    rw [hh]
    have hfl : ⌊((20 : ℝ) - 10) / 360⌋ = 0 := by
      rw [Int.floor_eq_zero_iff, Set.mem_Ico]
      constructor <;> norm_num
    rw [hfl]
    norm_num
  have heval : get_active_runway [rwA, rwB] 10 = some rwB := by
    simp only [get_active_runway, List.foldl_cons, List.foldl_nil]
    rw [if_pos (by rw [hA, hB]; norm_num)]
  exact ⟨heval, ((claim_C7 [rwA, rwB] 10).2 rwB heval).1,
    ((claim_C7 [rwA, rwB] 10).2 rwB heval).2⟩

/-! ### Helper lemmas: planar distance against the haversine distance -/

theorem planar_dist_proj_le_max (P A B : ℝ × ℝ) (t : ℝ) (h0 : 0 ≤ t) (h1 : t ≤ 1) :
    planar_dist P (proj_point A B t) ≤ max (planar_dist P A) (planar_dist P B) := by
  have hkey : (P.1 - (proj_point A B t).1) ^ 2 + (P.2 - (proj_point A B t).2) ^ 2 ≤
      max ((P.1 - A.1) ^ 2 + (P.2 - A.2) ^ 2) ((P.1 - B.1) ^ 2 + (P.2 - B.2) ^ 2) := by
    have hconv : (P.1 - (proj_point A B t).1) ^ 2 + (P.2 - (proj_point A B t).2) ^ 2 ≤
        (1 - t) * ((P.1 - A.1) ^ 2 + (P.2 - A.2) ^ 2) +
          t * ((P.1 - B.1) ^ 2 + (P.2 - B.2) ^ 2) := by
      simp only [proj_point]
      nlinarith [mul_nonneg (mul_nonneg h0 (sub_nonneg.mpr h1))
        (add_nonneg (sq_nonneg (B.1 - A.1)) (sq_nonneg (B.2 - A.2)))]
    refine le_trans hconv ?_
    have hA := le_max_left ((P.1 - A.1) ^ 2 + (P.2 - A.2) ^ 2)
      ((P.1 - B.1) ^ 2 + (P.2 - B.2) ^ 2)
    have hB := le_max_right ((P.1 - A.1) ^ 2 + (P.2 - A.2) ^ 2)
      ((P.1 - B.1) ^ 2 + (P.2 - B.2) ^ 2)
    nlinarith [mul_nonneg (sub_nonneg.mpr h1) (sub_nonneg.mpr hA),
      mul_nonneg h0 (sub_nonneg.mpr hB)]
  unfold planar_dist
  have hmono : Monotone Real.sqrt := fun x y h => Real.sqrt_le_sqrt h
  calc Real.sqrt ((P.1 - (proj_point A B t).1) ^ 2 + (P.2 - (proj_point A B t).2) ^ 2)
      ≤ Real.sqrt (max ((P.1 - A.1) ^ 2 + (P.2 - A.2) ^ 2)
          ((P.1 - B.1) ^ 2 + (P.2 - B.2) ^ 2)) := Real.sqrt_le_sqrt hkey
    _ = max (Real.sqrt ((P.1 - A.1) ^ 2 + (P.2 - A.2) ^ 2))
          (Real.sqrt ((P.1 - B.1) ^ 2 + (P.2 - B.2) ^ 2)) := hmono.map_max

theorem cos_radians_nonneg {lat : ℝ} (h : lat ∈ Set.Icc (-90 : ℝ) 90) :
    0 ≤ Real.cos (radians lat) := by
  obtain ⟨hl, hr⟩ := h
  apply Real.cos_nonneg_of_mem_Icc
  constructor
  · unfold radians
    nlinarith [mul_nonneg (show (0 : ℝ) ≤ lat + 90 by linarith)
      (show (0 : ℝ) ≤ Real.pi / 180 by positivity)]
  · unfold radians
    nlinarith [mul_nonneg (show (0 : ℝ) ≤ 90 - lat by linarith)
      (show (0 : ℝ) ≤ Real.pi / 180 by positivity)]

theorem haver_a_nonneg (a b : ℝ × ℝ) (ha : a.1 ∈ Set.Icc (-90 : ℝ) 90)
    (hb : b.1 ∈ Set.Icc (-90 : ℝ) 90) : 0 ≤ haver_a a.1 a.2 b.1 b.2 := by
  unfold haver_a
  exact add_nonneg (sq_nonneg _)
    (mul_nonneg (mul_nonneg (cos_radians_nonneg ha) (cos_radians_nonneg hb)) (sq_nonneg _))

theorem haver_a_le_one (a b : ℝ × ℝ) (ha : a.1 ∈ Set.Icc (-90 : ℝ) 90)
    (hb : b.1 ∈ Set.Icc (-90 : ℝ) 90) : haver_a a.1 a.2 b.1 b.2 ≤ 1 := by
  have hc1 := cos_radians_nonneg ha
  have hc2 := cos_radians_nonneg hb
  unfold haver_a
  set x1 := radians a.1
  set y1 := radians a.2
  set x2 := radians b.1
  set y2 := radians b.2
  have e1 : Real.sin ((x2 - x1) / 2) ^ 2 = 1 / 2 - Real.cos (x2 - x1) / 2 := by
    have h := Real.sin_sq_eq_half_sub ((x2 - x1) / 2)
    rwa [show 2 * ((x2 - x1) / 2) = x2 - x1 from by ring] at h
  have e3 : Real.cos (x2 - x1) = Real.cos x2 * Real.cos x1 + Real.sin x2 * Real.sin x1 :=
    Real.cos_sub x2 x1
  have e5 : Real.cos (x2 + x1) = Real.cos x2 * Real.cos x1 - Real.sin x2 * Real.sin x1 :=
    Real.cos_add x2 x1
  have hle : Real.cos (x2 + x1) ≤ 1 := Real.cos_le_one _
  have hs : Real.sin ((y2 - y1) / 2) ^ 2 ≤ 1 := Real.sin_sq_le_one _
  nlinarith [mul_nonneg (mul_nonneg hc1 hc2)
    (sub_nonneg.mpr hs)]

theorem planar_sq_le_haver (a b : ℝ × ℝ) :
    ((lat_lon_to_meters a).1 - (lat_lon_to_meters b).1) ^ 2 +
      ((lat_lon_to_meters a).2 - (lat_lon_to_meters b).2) ^ 2 ≤
    4 * EARTH_RADIUS ^ 2 * haver_a a.1 a.2 b.1 b.2 := by
  unfold lat_lon_to_meters haver_a
  dsimp only
  set x1 := radians a.1
  set y1 := radians a.2
  set x2 := radians b.1
  set y2 := radians b.2
  have e1 : Real.sin ((x2 - x1) / 2) ^ 2 = 1 / 2 - Real.cos (x2 - x1) / 2 := by
    have h := Real.sin_sq_eq_half_sub ((x2 - x1) / 2)
    rwa [show 2 * ((x2 - x1) / 2) = x2 - x1 from by ring] at h
  have e2 : Real.sin ((y2 - y1) / 2) ^ 2 = 1 / 2 - Real.cos (y2 - y1) / 2 := by
    have h := Real.sin_sq_eq_half_sub ((y2 - y1) / 2)
    rwa [show 2 * ((y2 - y1) / 2) = y2 - y1 from by ring] at h
  have e3 : Real.cos (x2 - x1) = Real.cos x2 * Real.cos x1 + Real.sin x2 * Real.sin x1 :=
    Real.cos_sub x2 x1
  have e4 : Real.cos (y2 - y1) = Real.cos y2 * Real.cos y1 + Real.sin y2 * Real.sin y1 :=
    Real.cos_sub y2 y1
  rw [e1, e2, e3, e4]
  have q1 : EARTH_RADIUS ^ 2 * Real.cos x1 ^ 2 * (Real.sin y1 ^ 2 + Real.cos y1 ^ 2) =
      EARTH_RADIUS ^ 2 * Real.cos x1 ^ 2 := by
    rw [Real.sin_sq_add_cos_sq]; ring
  have q2 : EARTH_RADIUS ^ 2 * Real.cos x2 ^ 2 * (Real.sin y2 ^ 2 + Real.cos y2 ^ 2) =
      EARTH_RADIUS ^ 2 * Real.cos x2 ^ 2 := by
    rw [Real.sin_sq_add_cos_sq]; ring
  have q3 : EARTH_RADIUS ^ 2 * (Real.sin x1 ^ 2 + Real.cos x1 ^ 2) = EARTH_RADIUS ^ 2 := by
    rw [Real.sin_sq_add_cos_sq]; ring
  have q4 : EARTH_RADIUS ^ 2 * (Real.sin x2 ^ 2 + Real.cos x2 ^ 2) = EARTH_RADIUS ^ 2 := by
    rw [Real.sin_sq_add_cos_sq]; ring
  nlinarith [q1, q2, q3, q4,
    mul_nonneg (sq_nonneg EARTH_RADIUS) (sq_nonneg (Real.sin x1 - Real.sin x2))]

theorem planar_le_haversine (a b : ℝ × ℝ) (ha : a.1 ∈ Set.Icc (-90 : ℝ) 90)
    (hb : b.1 ∈ Set.Icc (-90 : ℝ) 90) :
    planar_dist (lat_lon_to_meters a) (lat_lon_to_meters b) ≤
      haversine_distance a.1 a.2 b.1 b.2 := by
  have ha0 : 0 ≤ haver_a a.1 a.2 b.1 b.2 := haver_a_nonneg a b ha hb
  have ha1 : haver_a a.1 a.2 b.1 b.2 ≤ 1 := haver_a_le_one a b ha hb
  have hs0 : 0 ≤ Real.sqrt (haver_a a.1 a.2 b.1 b.2) := Real.sqrt_nonneg _
  have hs1 : Real.sqrt (haver_a a.1 a.2 b.1 b.2) ≤ 1 := by
    rw [show (1 : ℝ) = Real.sqrt 1 from Real.sqrt_one.symm]
    exact Real.sqrt_le_sqrt ha1
  have harc : Real.sqrt (haver_a a.1 a.2 b.1 b.2) ≤
      Real.arcsin (Real.sqrt (haver_a a.1 a.2 b.1 b.2)) := by
    have hsin := Real.sin_arcsin (by linarith) hs1
    calc Real.sqrt (haver_a a.1 a.2 b.1 b.2)
        = Real.sin (Real.arcsin (Real.sqrt (haver_a a.1 a.2 b.1 b.2))) := hsin.symm
      _ ≤ Real.arcsin (Real.sqrt (haver_a a.1 a.2 b.1 b.2)) :=
          Real.sin_le (Real.arcsin_nonneg.mpr hs0)
  have hR : (0 : ℝ) ≤ 2 * EARTH_RADIUS := by unfold EARTH_RADIUS; norm_num
  have hchord : planar_dist (lat_lon_to_meters a) (lat_lon_to_meters b) ≤
      2 * EARTH_RADIUS * Real.sqrt (haver_a a.1 a.2 b.1 b.2) := by
    have hps := planar_sq_le_haver a b
    calc planar_dist (lat_lon_to_meters a) (lat_lon_to_meters b)
        = Real.sqrt (((lat_lon_to_meters a).1 - (lat_lon_to_meters b).1) ^ 2 +
            ((lat_lon_to_meters a).2 - (lat_lon_to_meters b).2) ^ 2) := rfl
      _ ≤ Real.sqrt (4 * EARTH_RADIUS ^ 2 * haver_a a.1 a.2 b.1 b.2) := Real.sqrt_le_sqrt hps
      _ = Real.sqrt ((2 * EARTH_RADIUS) ^ 2 * haver_a a.1 a.2 b.1 b.2) := by ring_nf
      _ = Real.sqrt ((2 * EARTH_RADIUS) ^ 2) * Real.sqrt (haver_a a.1 a.2 b.1 b.2) :=
          Real.sqrt_mul (sq_nonneg _) _
      _ = 2 * EARTH_RADIUS * Real.sqrt (haver_a a.1 a.2 b.1 b.2) := by
          rw [Real.sqrt_sq hR]
  calc planar_dist (lat_lon_to_meters a) (lat_lon_to_meters b)
      ≤ 2 * EARTH_RADIUS * Real.sqrt (haver_a a.1 a.2 b.1 b.2) := hchord
    _ ≤ 2 * EARTH_RADIUS * Real.arcsin (Real.sqrt (haver_a a.1 a.2 b.1 b.2)) :=
        mul_le_mul_of_nonneg_left harc hR
    _ = haversine_distance a.1 a.2 b.1 b.2 := by
        unfold haversine_distance
        ring

/-- C9: for geographic points (latitudes within ±90°) and a non-degenerate
segment, the projection-clamped planar distance never exceeds the haversine
distance to the farther endpoint (hence it is within any tolerance of the
claimed bound): the planar projection underestimates the chord, the chord
underestimates the great-circle arc. -/
theorem claim_C9 (p s e : ℝ × ℝ)
    (hp : p.1 ∈ Set.Icc (-90 : ℝ) 90)
    (hs : s.1 ∈ Set.Icc (-90 : ℝ) 90)
    (he : e.1 ∈ Set.Icc (-90 : ℝ) 90)
    (hnd : seg_len_sq (lat_lon_to_meters s) (lat_lon_to_meters e) ≠ 0) :
    distance_to_segment p s e ≤
      ((max (haversine_distance p.1 p.2 s.1 s.2) (haversine_distance p.1 p.2 e.1 e.2) : ℝ) :
        EReal) := by
  have h0 : 0 ≤ clamp01 (proj_param (lat_lon_to_meters p) (lat_lon_to_meters s)
      (lat_lon_to_meters e)) := le_max_left 0 _
  have h1 : clamp01 (proj_param (lat_lon_to_meters p) (lat_lon_to_meters s)
      (lat_lon_to_meters e)) ≤ 1 := max_le (by norm_num) (min_le_left 1 _)
  have heq : distance_to_segment p s e =
      ((planar_dist (lat_lon_to_meters p)
        (proj_point (lat_lon_to_meters s) (lat_lon_to_meters e)
          (clamp01 (proj_param (lat_lon_to_meters p) (lat_lon_to_meters s)
            (lat_lon_to_meters e)))) : ℝ) : EReal) := by
    simp [distance_to_segment, hnd]
  rw [heq]
  rw [EReal.coe_le_coe_iff]
  refine le_trans (planar_dist_proj_le_max (lat_lon_to_meters p) (lat_lon_to_meters s)
    (lat_lon_to_meters e) _ h0 h1) ?_
  exact max_le_max (planar_le_haversine p s hp hs) (planar_le_haversine p e hp he)

/-- C9 witness: the bound at the standard witness points. -/
theorem claim_C9_witness :
    (posE.1 ∈ Set.Icc (-90 : ℝ) 90 ∧
      ((0 : ℝ), (0 : ℝ)).1 ∈ Set.Icc (-90 : ℝ) 90 ∧
      ((60 : ℝ), (0 : ℝ)).1 ∈ Set.Icc (-90 : ℝ) 90 ∧
      seg_len_sq (lat_lon_to_meters ((0 : ℝ), 0)) (lat_lon_to_meters ((60 : ℝ), 0)) ≠ 0) ∧
    distance_to_segment posE ((0 : ℝ), 0) ((60 : ℝ), 0) ≤
      ((max (haversine_distance posE.1 posE.2 0 0) (haversine_distance posE.1 posE.2 60 0) : ℝ) :
        EReal) := by
  have hp : posE.1 ∈ Set.Icc (-90 : ℝ) 90 := by
    constructor <;> norm_num [posE]
  have hs : ((0 : ℝ), (0 : ℝ)).1 ∈ Set.Icc (-90 : ℝ) 90 := by
    constructor <;> norm_num
  have he : ((60 : ℝ), (0 : ℝ)).1 ∈ Set.Icc (-90 : ℝ) 90 := by
    constructor <;> norm_num
  exact ⟨⟨hp, hs, he, segC4_nondegenerate⟩,
    claim_C9 posE ((0 : ℝ), 0) ((60 : ℝ), 0) hp hs he segC4_nondegenerate⟩
